import Mathlib

/-!
Shallow embedding of the physics-model layer of the acropolis repository,
covering src/acropolis/models.py (AbstractModel, DecayModel,
AnnihilationModel) and the constants of src/acropolis/params.py.

Python floats are modelled as real numbers.  The external collaborators
(InputInterface from acropolis.input, NuclearReactor and MatrixGenerator
from acropolis.nucl, scipy.linalg.expm) are out of the repository slice
under verification; they are modelled as abstract function-valued
parameters (`InputInterface`, `ModelEnv`), following their consumed
contracts.  The mutable per-instance state of an AbstractModel is the
injection energy `_sE0` together with the propagator buffer
`_sMatpBuffer`; `run_disintegration` is embedded as a pure function from
that state to a result record that additionally counts how often the
external solver pipeline (NuclearReactor + MatrixGenerator) and the
matrix-exponential primitive are invoked, so that claims about "the
external solver is called at most once" become statements about those
counters.
-/

namespace Acropolis

/-! ### Constants (src/acropolis/params.py) -/

/-- The fine-structure constant (params.py, line 33). -/
noncomputable def alpha : ℝ := 1 / 137.036

/-- The electron mass in MeV (params.py, line 36). -/
noncomputable def me : ℝ := 0.511

/-- The electron mass squared in MeV^2 (params.py, line 39). -/
noncomputable def me2 : ℝ := me ^ 2

/-- The reduced Planck constant in MeV*s (params.py, line 48). -/
noncomputable def hbar : ℝ := 6.582119514e-22

/-- The speed of light in cm/s (params.py, line 51). -/
noncomputable def c_si : ℝ := 2.99792458e10

/-- Minimum energy for the different spectra in MeV (params.py, line 92). -/
noncomputable def Emin : ℝ := 1.5

/-! ### External collaborators (consumed contracts only) -/

/-- The slice of the external cosmology provider `InputInterface`
(acropolis.input, out of the verified slice) that models.py consumes:
scale factor, time and temperature as functions of their scalar
argument. -/
structure InputInterface where
  scale_factor : ℝ → ℝ
  time : ℝ → ℝ
  temperature : ℝ → ℝ

/-- The per-scenario environment of `run_disintegration`:
`bbn_abundances` is the provider's baseline abundance matrix (NY tracked
isotopes, k alternative baseline columns); `get_final_matp` is the
propagator-exponent matrix produced by the external solver pipeline
(NuclearReactor followed by MatrixGenerator, models.py lines 58-68) —
for a fixed scenario that pipeline is deterministic, so it is modelled
as a single matrix value; `expm` is the external dense
matrix-exponential primitive (scipy.linalg.expm). -/
structure ModelEnv (NY k : ℕ) where
  bbn_abundances : Matrix (Fin NY) (Fin k) ℝ
  get_final_matp : Matrix (Fin NY) (Fin NY) ℝ
  expm : Matrix (Fin NY) (Fin NY) ℝ → Matrix (Fin NY) (Fin NY) ℝ

/-! ### AbstractModel state and operations (models.py, lines 19-118) -/

/-- The mutable state of an AbstractModel instance: the injection energy
`_sE0` (models.py, line 26) and the propagator buffer `_sMatpBuffer`
(models.py, line 46), `none` standing for Python's `None`.  The
remaining attributes set in `__init__` (`_sII`, `_sTrg`, `_sS0`,
`_sSc`) are immutable after construction and are modelled by the
`ModelEnv` and the source-term functions below. -/
structure AbstractModelState (NY : ℕ) where
  sE0 : ℝ
  sMatpBuffer : Option (Matrix (Fin NY) (Fin NY) ℝ)

/-- Error type named by the specification for invalid physical
parameters.  The source code of models.py defines and raises no such
error, hence the type has no inhabitants. -/
inductive ConfigurationError : Type

/-- AbstractModel.__init__ (models.py, lines 21-46) restricted to the
mutable state: it stores the injection energy unchanged and initializes
the propagator buffer to `None`. -/
def AbstractModel.init (NY : ℕ) (e0 : ℝ) : AbstractModelState NY :=
  { sE0 := e0, sMatpBuffer := none }

/-- Construction of an AbstractModel, embedded in `Except` so that
claims about construction failure can be stated.  The body of
`__init__` (models.py, lines 21-46) contains no validation of `e0` and
no raise statement, so construction always succeeds. -/
def AbstractModel.construct (NY : ℕ) (e0 : ℝ) :
    Except ConfigurationError (AbstractModelState NY) :=
  Except.ok (AbstractModel.init NY e0)

/-- Embedding of `np.column_stack(list(fmat.dot(Y0i) for Y0i in
self._sII.bbn_abundances().transpose()))` (models.py, line 75): column
j of the result is `fmat` applied to column j of the baseline abundance
matrix, i.e. entry (i, j) is the dot product of row i of `fmat` with
column j of `y0`. -/
def column_stack_dot {NY k : ℕ} (fmat : Matrix (Fin NY) (Fin NY) ℝ)
    (y0 : Matrix (Fin NY) (Fin k) ℝ) : Matrix (Fin NY) (Fin k) ℝ :=
  Matrix.of fun i j => ∑ l, fmat i l * y0 l j

/-- Result of one call to `run_disintegration`: the returned abundance
matrix, the state of the instance after the call, and counters for how
often the external solver pipeline (NuclearReactor + MatrixGenerator)
and the matrix-exponential primitive were invoked during the call. -/
structure RunResult (NY k : ℕ) where
  value : Matrix (Fin NY) (Fin k) ℝ
  state : AbstractModelState NY
  solver_calls : ℕ
  expm_calls : ℕ

/-- AbstractModel.run_disintegration (models.py, lines 49-75).  If the
energy is below all thresholds (`E0 <= Emin`) the initial abundances
are returned unchanged; otherwise the buffered propagator exponent is
reused if present, else the external solver pipeline is run once and
its result buffered; finally `expm` of the propagator exponent is
applied columnwise to the baseline abundances. -/
noncomputable def run_disintegration {NY k : ℕ} (env : ModelEnv NY k)
    (s : AbstractModelState NY) : RunResult NY k :=
  if s.sE0 ≤ Emin then
    { value := env.bbn_abundances, state := s, solver_calls := 0, expm_calls := 0 }
  else
    match s.sMatpBuffer with
    | some matp =>
        { value := column_stack_dot (env.expm matp) env.bbn_abundances
          state := s
          solver_calls := 0
          expm_calls := 1 }
    | none =>
        { value := column_stack_dot (env.expm env.get_final_matp) env.bbn_abundances
          state := { s with sMatpBuffer := some env.get_final_matp }
          solver_calls := 1
          expm_calls := 1 }

/-- AbstractModel.set_matp_buffer (models.py, lines 78-79): overwrites
the propagator buffer with the given value (which, in Python, may be
`None`). -/
def set_matp_buffer {NY : ℕ} (s : AbstractModelState NY)
    (matp : Option (Matrix (Fin NY) (Fin NY) ℝ)) : AbstractModelState NY :=
  { s with sMatpBuffer := matp }

/-- AbstractModel.get_matp_buffer (models.py, lines 82-83). -/
def get_matp_buffer {NY : ℕ} (s : AbstractModelState NY) :
    Option (Matrix (Fin NY) (Fin NY) ℝ) :=
  s.sMatpBuffer

/-- The public operations of an AbstractModel instance, for stating
claims about sequences of calls. -/
inductive Op (NY : ℕ) where
  | run : Op NY
  | setBuf : Option (Matrix (Fin NY) (Fin NY) ℝ) → Op NY
  | getBuf : Op NY

/-- State transition of one public operation (`get_matp_buffer` reads
but does not change the state). -/
noncomputable def step {NY k : ℕ} (env : ModelEnv NY k)
    (s : AbstractModelState NY) : Op NY → AbstractModelState NY
  | Op.run => (run_disintegration env s).state
  | Op.setBuf m => set_matp_buffer s m
  | Op.getBuf => s

/-- State after a sequence of public operations. -/
noncomputable def runOps {NY k : ℕ} (env : ModelEnv NY k)
    (s : AbstractModelState NY) (ops : List (Op NY)) : AbstractModelState NY :=
  ops.foldl (step env) s

/-! ### Positron mirroring (models.py, lines 103-104 and 117-118) -/

/-- AbstractModel._source_positron_0 (models.py, lines 103-104): the
positron delta source of every concrete model is the model's own
electron delta source, obtained by dynamic dispatch on `self`; here the
concrete electron function is passed explicitly. -/
def AbstractModel.source_positron_0 (source_electron_0 : ℝ → ℝ) (T : ℝ) : ℝ :=
  source_electron_0 T

/-- AbstractModel._source_positron_c (models.py, lines 117-118): the
positron continuum source of every concrete model is the model's own
electron continuum source. -/
def AbstractModel.source_positron_c (source_electron_c : ℝ → ℝ → ℝ) (E T : ℝ) : ℝ :=
  source_electron_c E T

/-! ### Python method tables (for ABC instantiability) -/

/-- Names of the methods of AbstractModel decorated with
`@abstractmethod` (models.py, lines 88-114): `_temperature_range`,
`_source_photon_0`, `_source_electron_0`, `_source_photon_c`,
`_source_electron_c`. -/
def abstractmethodNames : List String :=
  ["_temperature_range", "_source_photon_0", "_source_electron_0",
   "_source_photon_c", "_source_electron_c"]

/-- Names of the methods defined in class DecayModel (models.py,
lines 121-204). -/
def decayModelMethods : List String :=
  ["__init__", "_number_density", "_temperature_range",
   "_source_photon_0", "_source_electron_0", "_source_photon_c",
   "_source_electron_c"]

/-- Names of the methods defined in class AnnihilationModel (models.py,
lines 207-302).  Note the entry `_source_photon_z` (line 278) where the
abstract contract expects `_source_photon_0`. -/
def annihilationModelMethods : List String :=
  ["__init__", "_number_density", "_dm_temperature", "_sigma_v",
   "_temperature_range", "_source_photon_z", "_source_electron_0",
   "_source_photon_c", "_source_electron_c"]

/-- Python ABC instantiability: a subclass of AbstractModel can be
instantiated exactly when every `@abstractmethod` name is overridden by
a method defined in the subclass; otherwise `TypeError` is raised at
the constructor call. -/
def pythonInstantiable (definedMethods : List String) : Bool :=
  abstractmethodNames.all fun m => definedMethods.contains m

/-! ### DecayModel (models.py, lines 121-204) -/

/-- Constructor parameters of DecayModel (models.py, lines 123-145):
mass `mphi` (MeV), lifetime `tau` (s), reference temperature `temp0`,
relative number density `n0a` at `temp0`, branching ratios `bree` and
`braa`. -/
structure DecayParams where
  mphi : ℝ
  tau : ℝ
  temp0 : ℝ
  n0a : ℝ
  bree : ℝ
  braa : ℝ

/-- The injection energy of a DecayModel, `self._sE0 = mphi/2.`
(models.py, line 132). -/
noncomputable def DecayModel.E0 (p : DecayParams) : ℝ := p.mphi / 2

/-- DecayModel._number_density (models.py, lines 153-159). -/
noncomputable def DecayModel.number_density (ii : InputInterface)
    (p : DecayParams) (T : ℝ) : ℝ :=
  p.n0a * (Real.pi ^ 2 * p.temp0 ^ 3 / 15) *
    (ii.scale_factor p.temp0 / ii.scale_factor T) ^ 3 *
    Real.exp (-(ii.time T - ii.time p.temp0) / p.tau)

/-- DecayModel._temperature_range (models.py, lines 164-177), with
`mag = 2.`, `Td = self._sII.temperature(self._sTau)`,
`Tmin = 10**(log10(Td) - 3*mag/4)`, `Tmax = 10**(log10(Td) + 1*mag/4)`. -/
noncomputable def DecayModel.temperature_range (ii : InputInterface)
    (p : DecayParams) : ℝ × ℝ :=
  ((10:ℝ) ^ (Real.logb 10 (ii.temperature p.tau) - 3 * 2 / 4),
   (10:ℝ) ^ (Real.logb 10 (ii.temperature p.tau) + 1 * 2 / 4))

/-- DecayModel._source_photon_0 (models.py, lines 180-181). -/
noncomputable def DecayModel.source_photon_0 (ii : InputInterface)
    (p : DecayParams) (T : ℝ) : ℝ :=
  p.braa * 2 * DecayModel.number_density ii p T * (hbar / p.tau)

/-- DecayModel._source_electron_0 (models.py, lines 184-185). -/
noncomputable def DecayModel.source_electron_0 (ii : InputInterface)
    (p : DecayParams) (T : ℝ) : ℝ :=
  p.bree * DecayModel.number_density ii p T * (hbar / p.tau)

/-- DecayModel._source_photon_c (models.py, lines 188-200), with
`EX = self._sE0`, `x = E/EX`, `y = me2/(4*EX**2)`: zero when
`1 - y < x`, else the splitting-function spectrum attached to the
electron delta source. -/
noncomputable def DecayModel.source_photon_c (ii : InputInterface)
    (p : DecayParams) (E T : ℝ) : ℝ :=
  if 1 - me2 / (4 * DecayModel.E0 p ^ 2) < E / DecayModel.E0 p then 0
  else
    DecayModel.source_electron_0 ii p T / DecayModel.E0 p * (alpha / Real.pi) *
      (1 + (1 - E / DecayModel.E0 p) ^ 2) / (E / DecayModel.E0 p) *
      Real.log ((1 - E / DecayModel.E0 p) / (me2 / (4 * DecayModel.E0 p ^ 2)))

/-- DecayModel._source_electron_c (models.py, lines 203-204): the
constant 0. -/
noncomputable def DecayModel.source_electron_c (E T : ℝ) : ℝ := 0

/-! ### AnnihilationModel (models.py, lines 207-302) -/

/-- Constructor parameters of AnnihilationModel (models.py,
lines 209-228): mass `mchi` (MeV), s-wave and p-wave coefficients `a`
and `b` (cm^3/s), kinetic-decoupling temperature `tempkd` (MeV),
branching ratios `bree` and `braa`. -/
structure AnnihilationParams where
  mchi : ℝ
  a : ℝ
  b : ℝ
  tempkd : ℝ
  bree : ℝ
  braa : ℝ

/-- The injection energy of an AnnihilationModel, `self._sE0 = mchi`
(models.py, line 223). -/
noncomputable def AnnihilationModel.E0 (p : AnnihilationParams) : ℝ := p.mchi

/-- AnnihilationModel._number_density (models.py, lines 235-241), with
the benchmark values `rho_d0 = 0.12*8.095894680377574e-35` MeV^4 and
`T0 = 2.72548*8.6173324e-11` MeV hard-coded in the source. -/
noncomputable def AnnihilationModel.number_density (ii : InputInterface)
    (p : AnnihilationParams) (T : ℝ) : ℝ :=
  0.12 * 8.095894680377574e-35 *
    (ii.scale_factor (2.72548 * 8.6173324e-11) / ii.scale_factor T) ^ 3 / p.mchi

/-- AnnihilationModel._dm_temperature (models.py, lines 244-250):
equals T while `T >= Tkd`, afterwards redshifts as
`Tkd * (a(Tkd)/a(T))**2`. -/
noncomputable def AnnihilationModel.dm_temperature (ii : InputInterface)
    (p : AnnihilationParams) (T : ℝ) : ℝ :=
  if p.tempkd ≤ T then T
  else p.tempkd * (ii.scale_factor p.tempkd / ii.scale_factor T) ^ 2

/-- AnnihilationModel._sigma_v (models.py, lines 253-259). -/
noncomputable def AnnihilationModel.sigma_v (ii : InputInterface)
    (p : AnnihilationParams) (T : ℝ) : ℝ :=
  p.a / (hbar ^ 2 * c_si ^ 3) +
    p.b / (hbar ^ 2 * c_si ^ 3) *
      (6 * AnnihilationModel.dm_temperature ii p T / p.mchi)

/-- AnnihilationModel._temperature_range (models.py, lines 264-275),
with `mag = 4.`, `Tmax = me2/(22*.5*Emin)`,
`Tmin = 10**(log10(Tmax) - mag)`; it depends only on global
constants. -/
noncomputable def AnnihilationModel.temperature_range : ℝ × ℝ :=
  ((10:ℝ) ^ (Real.logb 10 (me2 / (22 * 0.5 * Emin)) - 4),
   me2 / (22 * 0.5 * Emin))

/-- AnnihilationModel._source_photon_z (models.py, lines 278-279): the
Z-channel photon delta-source term.  No other code in the repository
references this method; in particular it does not override the abstract
slot `_source_photon_0`. -/
noncomputable def AnnihilationModel.source_photon_z (ii : InputInterface)
    (p : AnnihilationParams) (T : ℝ) : ℝ :=
  p.braa * AnnihilationModel.number_density ii p T ^ 2 *
    AnnihilationModel.sigma_v ii p T

/-- AnnihilationModel._source_electron_0 (models.py, lines 282-283). -/
noncomputable def AnnihilationModel.source_electron_0 (ii : InputInterface)
    (p : AnnihilationParams) (T : ℝ) : ℝ :=
  p.bree * 0.5 * AnnihilationModel.number_density ii p T ^ 2 *
    AnnihilationModel.sigma_v ii p T

/-- AnnihilationModel._source_photon_c (models.py, lines 286-298):
textually identical to DecayModel._source_photon_c with this model's
`_sE0 = mchi` and `_source_electron_0`. -/
noncomputable def AnnihilationModel.source_photon_c (ii : InputInterface)
    (p : AnnihilationParams) (E T : ℝ) : ℝ :=
  if 1 - me2 / (4 * AnnihilationModel.E0 p ^ 2) < E / AnnihilationModel.E0 p then 0
  else
    AnnihilationModel.source_electron_0 ii p T / AnnihilationModel.E0 p *
      (alpha / Real.pi) *
      (1 + (1 - E / AnnihilationModel.E0 p) ^ 2) / (E / AnnihilationModel.E0 p) *
      Real.log ((1 - E / AnnihilationModel.E0 p) /
        (me2 / (4 * AnnihilationModel.E0 p ^ 2)))

/-- AnnihilationModel._source_electron_c (models.py, lines 301-302):
the constant 0. -/
noncomputable def AnnihilationModel.source_electron_c (E T : ℝ) : ℝ := 0

/-! ### Concrete instances used by witness theorems -/

/-- Concrete cosmology provider for witnesses: every consumed function
is constantly 1. -/
noncomputable def ii0 : InputInterface :=
  { scale_factor := fun _ => 1, time := fun _ => 1, temperature := fun _ => 1 }

/-- Concrete environment for witnesses: zero baseline abundances, zero
propagator exponent, identity in place of the matrix exponential. -/
noncomputable def env0 : ModelEnv 9 3 :=
  { bbn_abundances := 0, get_final_matp := 0, expm := fun m => m }

/-- Concrete DecayModel parameters for witnesses (mphi = 20 MeV, so
E0 = 10 MeV). -/
noncomputable def pd0 : DecayParams :=
  { mphi := 20, tau := 1e7, temp0 := 10, n0a := 1e-10, bree := 1, braa := 0 }

/-- Concrete AnnihilationModel parameters for witnesses (mchi = 10 MeV,
so E0 = 10 MeV). -/
noncomputable def pa0 : AnnihilationParams :=
  { mchi := 10, a := 1e-26, b := 0, tempkd := 0, bree := 0.5, braa := 0.5 }

/-- Concrete state with sub-threshold energy and empty buffer. -/
noncomputable def s1 : AbstractModelState 9 :=
  { sE0 := 1, sMatpBuffer := none }

/-- Concrete state with super-threshold energy and a set buffer. -/
noncomputable def s3 : AbstractModelState 9 :=
  { sE0 := 2, sMatpBuffer := some 0 }

/-- Concrete state with a set buffer, for the buffer-lifecycle claim. -/
noncomputable def s9 : AbstractModelState 9 :=
  { sE0 := 3, sMatpBuffer := some 0 }

/-- Concrete state with sub-threshold energy and a set buffer. -/
noncomputable def s10 : AbstractModelState 9 :=
  { sE0 := 1.2, sMatpBuffer := some 0 }

/-- Concrete operation sequence containing no `setBuf none`. -/
def ops9 : List (Op 9) := [Op.getBuf, Op.run]

/-! ### Claim theorems -/

/-- C1: for every scenario whose injection energy satisfies
`E0 <= Emin`, `run_disintegration` returns exactly the provider's
baseline abundance matrix unchanged and invokes neither the external
solver pipeline nor the matrix exponential. -/
theorem c1_short_circuit_returns_baseline {NY k : ℕ} (env : ModelEnv NY k)
    (s : AbstractModelState NY) (h : s.sE0 ≤ Emin) :
    (run_disintegration env s).value = env.bbn_abundances ∧
    (run_disintegration env s).solver_calls = 0 ∧
    (run_disintegration env s).expm_calls = 0 := by
  simp [run_disintegration, h]

/-- Witness for C1 at the concrete sub-threshold state `s1`
(`E0 = 1 <= 1.5 = Emin`). -/
theorem c1_short_circuit_witness :
    s1.sE0 ≤ Emin ∧
    ((run_disintegration env0 s1).value = env0.bbn_abundances ∧
     (run_disintegration env0 s1).solver_calls = 0 ∧
     (run_disintegration env0 s1).expm_calls = 0) :=
  ⟨by norm_num [s1, Emin],
   c1_short_circuit_returns_baseline env0 s1 (by norm_num [s1, Emin])⟩

/-- C2: two consecutive calls of `run_disintegration` on the same
instance, with no intervening buffer mutation, return identical
abundance matrices, and the external solver pipeline runs at most once
across both calls (the first non-short-circuit call buffers the
propagator exponent, the second reuses it). -/
theorem c2_run_disintegration_idempotent {NY k : ℕ} (env : ModelEnv NY k)
    (s : AbstractModelState NY) :
    (run_disintegration env (run_disintegration env s).state).value =
      (run_disintegration env s).value ∧
    (run_disintegration env s).solver_calls +
      (run_disintegration env (run_disintegration env s).state).solver_calls ≤ 1 := by
  by_cases h : s.sE0 ≤ Emin
  · simp [run_disintegration, h]
  · cases hb : s.sMatpBuffer with
    | none => simp [run_disintegration, h, hb]
    | some m => simp [run_disintegration, h, hb]

/-- C3: `set_matp_buffer (get_matp_buffer())` leaves the state
unchanged, and a scenario with `E0 > Emin` whose buffer holds a matrix
runs `run_disintegration` without invoking the external rate-matrix
assembly, applying the matrix exponential directly to the buffered
matrix. -/
theorem c3_buffer_transfer {NY k : ℕ} (env : ModelEnv NY k)
    (s t : AbstractModelState NY) (m : Matrix (Fin NY) (Fin NY) ℝ)
    (hE : Emin < t.sE0) (hb : t.sMatpBuffer = some m) :
    set_matp_buffer s (get_matp_buffer s) = s ∧
    (run_disintegration env t).solver_calls = 0 ∧
    (run_disintegration env t).expm_calls = 1 ∧
    (run_disintegration env t).value =
      column_stack_dot (env.expm m) env.bbn_abundances ∧
    (run_disintegration env t).state = t := by
  have hne : ¬ t.sE0 ≤ Emin := not_le.mpr hE
  refine ⟨rfl, ?_, ?_, ?_, ?_⟩ <;> simp [run_disintegration, hne, hb]

/-- Witness for C3 at the concrete states `s1` (buffer round trip) and
`s3` (`E0 = 2 > Emin`, buffer set to the zero matrix). -/
theorem c3_buffer_transfer_witness :
    Emin < s3.sE0 ∧
    (set_matp_buffer s1 (get_matp_buffer s1) = s1 ∧
     (run_disintegration env0 s3).solver_calls = 0 ∧
     (run_disintegration env0 s3).expm_calls = 1 ∧
     (run_disintegration env0 s3).value =
       column_stack_dot (env0.expm 0) env0.bbn_abundances ∧
     (run_disintegration env0 s3).state = s3) :=
  ⟨by norm_num [s3, Emin],
   c3_buffer_transfer env0 s1 s3 0 (by norm_num [s3, Emin]) rfl⟩

/-- C4 counterexample: at the concrete injection energy
`e0 = -1 <= 0`, construction does not fail — `AbstractModel.__init__`
contains no validation of `e0`, so `construct` returns `ok`,
contradicting the claim that it fails with a ConfigurationError. -/
theorem c4_counterexample_construct_accepts_nonpositive :
    (-1 : ℝ) ≤ 0 ∧
    AbstractModel.construct 9 (-1) =
      Except.ok { sE0 := (-1 : ℝ), sMatpBuffer := none } :=
  ⟨by norm_num, rfl⟩

/-- C4 amended: `AbstractModel.__init__` performs no validation of the
injection energy: construction succeeds for every real `e0` (including
`e0 <= 0`), storing `e0` unchanged with an empty buffer, and never
raises a ConfigurationError (no such error exists in the code). -/
theorem c4_construct_never_fails (NY : ℕ) (e0 : ℝ) :
    AbstractModel.construct NY e0 =
      Except.ok { sE0 := e0, sMatpBuffer := none } :=
  rfl

/-- C5: evaluation of the code at the failing input.  AnnihilationModel
defines `_source_photon_z` but never overrides the abstract slot
`_source_photon_0`, hence Python's ABC machinery rejects every attempt
to instantiate it (TypeError), while DecayModel overrides all abstract
methods and is instantiable. -/
theorem c5_annihilation_model_not_instantiable :
    pythonInstantiable annihilationModelMethods = false ∧
    pythonInstantiable decayModelMethods = true ∧
    annihilationModelMethods.contains "_source_photon_z" = true ∧
    annihilationModelMethods.contains "_source_photon_0" = false := by
  decide

/-- C6: for both concrete models the positron delta and continuum
sources are obtained by mirroring the electron sources through the
AbstractModel layer (models.py, lines 103-104 and 117-118), so they are
always identical to the electron ones — for the decay model both equal
`bree * n(T) * hbar/tau`, for the annihilation model both equal
`bree * 0.5 * n(T)^2 * sigma_v(T)`, and both continuum sources are 0. -/
theorem c6_positron_sources_mirror_electron (ii : InputInterface)
    (pd : DecayParams) (pa : AnnihilationParams) (E T : ℝ) :
    AbstractModel.source_positron_0 (DecayModel.source_electron_0 ii pd) T =
      DecayModel.source_electron_0 ii pd T ∧
    AbstractModel.source_positron_0 (DecayModel.source_electron_0 ii pd) T =
      pd.bree * DecayModel.number_density ii pd T * (hbar / pd.tau) ∧
    AbstractModel.source_positron_c DecayModel.source_electron_c E T =
      DecayModel.source_electron_c E T ∧
    AbstractModel.source_positron_0 (AnnihilationModel.source_electron_0 ii pa) T =
      AnnihilationModel.source_electron_0 ii pa T ∧
    AbstractModel.source_positron_0 (AnnihilationModel.source_electron_0 ii pa) T =
      pa.bree * 0.5 * AnnihilationModel.number_density ii pa T ^ 2 *
        AnnihilationModel.sigma_v ii pa T ∧
    AbstractModel.source_positron_c AnnihilationModel.source_electron_c E T =
      AnnihilationModel.source_electron_c E T :=
  ⟨rfl, rfl, rfl, rfl, rfl, rfl⟩

/-- C10: on the sub-threshold short-circuit path (`E0 <= Emin`),
`run_disintegration` leaves the instance state — in particular the
propagator buffer, whatever it holds — exactly as it was. -/
theorem c10_short_circuit_frame {NY k : ℕ} (env : ModelEnv NY k)
    (s : AbstractModelState NY) (h : s.sE0 ≤ Emin) :
    (run_disintegration env s).state = s := by
  simp [run_disintegration, h]

/-- Witness for C10 at the concrete state `s10`
(`E0 = 1.2 <= Emin`, buffer already set to the zero matrix). -/
theorem c10_short_circuit_frame_witness :
    s10.sE0 ≤ Emin ∧ (run_disintegration env0 s10).state = s10 :=
  ⟨by norm_num [s10, Emin],
   c10_short_circuit_frame env0 s10 (by norm_num [s10, Emin])⟩

/-- Helper for C9: every public operation other than
`set_matp_buffer(None)` maps a state whose buffer holds a matrix to a
state whose buffer still holds a matrix. -/
theorem step_preserves_some {NY k : ℕ} (env : ModelEnv NY k)
    (s : AbstractModelState NY) (op : Op NY) (hop : op ≠ Op.setBuf none)
    (hs : s.sMatpBuffer.isSome = true) :
    ((step env s op).sMatpBuffer).isSome = true := by
  cases op with
  | run =>
      by_cases h : s.sE0 ≤ Emin
      · simpa [step, run_disintegration, h] using hs
      · cases hb : s.sMatpBuffer with
        | none => simp [hb] at hs
        | some m => simp [step, run_disintegration, h, hb]
  | setBuf m =>
      cases m with
      | none => exact absurd rfl hop
      | some mm => simp [step, set_matp_buffer]
  | getBuf => simpa [step] using hs

/-- C9 counterexample: the claim that once the buffer holds a matrix no
sequence of public operations returns it to the empty state is false —
at the concrete state `s9` (buffer set to the zero matrix), the public
operation `set_matp_buffer(None)` clears the buffer. -/
theorem c9_counterexample_set_buffer_none_clears :
    s9.sMatpBuffer.isSome = true ∧
    (runOps env0 s9 [Op.setBuf none]).sMatpBuffer = none :=
  ⟨rfl, rfl⟩

/-- C9 amended: the propagator buffer is empty at construction, and
once it holds a matrix, no sequence of public operations that never
passes `None` to `set_matp_buffer` returns it to the empty state
(`set_matp_buffer(None)`, by contrast, does clear it). -/
theorem c9_buffer_monotone_amended {NY k : ℕ} (env : ModelEnv NY k)
    (s : AbstractModelState NY) (ops : List (Op NY))
    (hops : ∀ op ∈ ops, op ≠ Op.setBuf none)
    (hs : s.sMatpBuffer.isSome = true) :
    (∀ e0 : ℝ, (AbstractModel.init NY e0).sMatpBuffer = none) ∧
    ((runOps env s ops).sMatpBuffer).isSome = true := by
  refine ⟨fun _ => rfl, ?_⟩
  induction ops generalizing s with
  | nil => simpa [runOps] using hs
  | cons op rest ih =>
      have hstep := step_preserves_some env s op
        (hops op (List.mem_cons_self op rest)) hs
      simpa [runOps] using
        ih (step env s op) (fun o ho => hops o (List.mem_cons_of_mem op ho)) hstep

/-- Witness for C9 amended at the concrete state `s9` and the concrete
operation sequence `ops9` containing no `setBuf none`. -/
theorem c9_buffer_monotone_witness :
    (∀ e0 : ℝ, (AbstractModel.init 9 e0).sMatpBuffer = none) ∧
    ((runOps env0 s9 ops9).sMatpBuffer).isSome = true :=
  c9_buffer_monotone_amended env0 s9 ops9 (by simp [ops9]) rfl

/-- Helper for C7: the splitting-function value is non-negative on the
kinematically allowed range, given a non-negative electron delta source
and a positive injection energy. -/
theorem photon_spectrum_nonneg (EX sp E : ℝ) (hEX : 0 < EX) (hsp : 0 ≤ sp)
    (hE : 0 < E) (hx : E / EX ≤ 1 - me2 / (4 * EX ^ 2)) :
    0 ≤ sp / EX * (alpha / Real.pi) * (1 + (1 - E / EX) ^ 2) / (E / EX) *
        Real.log ((1 - E / EX) / (me2 / (4 * EX ^ 2))) := by
  have hme2 : (0 : ℝ) < me2 := by simp only [me2, me]; norm_num
  have hy : 0 < me2 / (4 * EX ^ 2) := div_pos hme2 (by positivity)
  have hxpos : 0 < E / EX := div_pos hE hEX
  have hlog : 0 ≤ Real.log ((1 - E / EX) / (me2 / (4 * EX ^ 2))) := by
    apply Real.log_nonneg
    exact (one_le_div hy).mpr (by linarith)
  have halpha : 0 ≤ alpha := by simp only [alpha]; norm_num
  have hterm : 0 ≤ sp / EX * (alpha / Real.pi) * (1 + (1 - E / EX) ^ 2) / (E / EX) := by
    apply div_nonneg _ hxpos.le
    exact mul_nonneg
      (mul_nonneg (div_nonneg hsp hEX.le) (div_nonneg halpha Real.pi_pos.le))
      (by positivity)
  exact mul_nonneg hterm hlog

/-- C7: for both concrete models, the continuum photon source returns
exactly 0 whenever `E/E0 > 1 - me2/(4*E0^2)` (and raises nothing), and
on the kinematically allowed range `0 < E`, `E/E0 <= 1 - me2/(4*E0^2)`
it equals `(S0_electron(T)/E0) * (alpha/pi) * (1+(1-x)^2)/x * log((1-x)/y)`
with `x = E/E0`, `y = me2/(4*E0^2)`, a value that is non-negative
whenever `S0_electron(T) >= 0` (in this real-number semantics every
value is finite). -/
theorem c7_source_photon_c_kinematics (ii : InputInterface)
    (pd : DecayParams) (pa : AnnihilationParams)
    (hmphi : 0 < pd.mphi) (hmchi : 0 < pa.mchi) (E T : ℝ) :
    (1 - me2 / (4 * DecayModel.E0 pd ^ 2) < E / DecayModel.E0 pd →
      DecayModel.source_photon_c ii pd E T = 0) ∧
    (0 < E → E / DecayModel.E0 pd ≤ 1 - me2 / (4 * DecayModel.E0 pd ^ 2) →
      DecayModel.source_photon_c ii pd E T =
        DecayModel.source_electron_0 ii pd T / DecayModel.E0 pd *
          (alpha / Real.pi) *
          (1 + (1 - E / DecayModel.E0 pd) ^ 2) / (E / DecayModel.E0 pd) *
          Real.log ((1 - E / DecayModel.E0 pd) /
            (me2 / (4 * DecayModel.E0 pd ^ 2))) ∧
      (0 ≤ DecayModel.source_electron_0 ii pd T →
        0 ≤ DecayModel.source_photon_c ii pd E T)) ∧
    (1 - me2 / (4 * AnnihilationModel.E0 pa ^ 2) < E / AnnihilationModel.E0 pa →
      AnnihilationModel.source_photon_c ii pa E T = 0) ∧
    (0 < E →
      E / AnnihilationModel.E0 pa ≤ 1 - me2 / (4 * AnnihilationModel.E0 pa ^ 2) →
      AnnihilationModel.source_photon_c ii pa E T =
        AnnihilationModel.source_electron_0 ii pa T / AnnihilationModel.E0 pa *
          (alpha / Real.pi) *
          (1 + (1 - E / AnnihilationModel.E0 pa) ^ 2) /
            (E / AnnihilationModel.E0 pa) *
          Real.log ((1 - E / AnnihilationModel.E0 pa) /
            (me2 / (4 * AnnihilationModel.E0 pa ^ 2))) ∧
      (0 ≤ AnnihilationModel.source_electron_0 ii pa T →
        0 ≤ AnnihilationModel.source_photon_c ii pa E T)) := by
  have hEXd : 0 < DecayModel.E0 pd := by
    simp only [DecayModel.E0]
    exact div_pos hmphi (by norm_num)
  have hEXa : 0 < AnnihilationModel.E0 pa := hmchi
  refine ⟨?_, ?_, ?_, ?_⟩
  · intro h
    simp only [DecayModel.source_photon_c, if_pos h]
  · intro hE hx
    have hnot : ¬ 1 - me2 / (4 * DecayModel.E0 pd ^ 2) < E / DecayModel.E0 pd :=
      not_lt.mpr hx
    constructor
    · simp only [DecayModel.source_photon_c, if_neg hnot]
    · intro hsp
      simp only [DecayModel.source_photon_c, if_neg hnot]
      exact photon_spectrum_nonneg (DecayModel.E0 pd)
        (DecayModel.source_electron_0 ii pd T) E hEXd hsp hE hx
  · intro h
    simp only [AnnihilationModel.source_photon_c, if_pos h]
  · intro hE hx
    have hnot : ¬ 1 - me2 / (4 * AnnihilationModel.E0 pa ^ 2) <
        E / AnnihilationModel.E0 pa := not_lt.mpr hx
    constructor
    · simp only [AnnihilationModel.source_photon_c, if_neg hnot]
    · intro hsp
      simp only [AnnihilationModel.source_photon_c, if_neg hnot]
      exact photon_spectrum_nonneg (AnnihilationModel.E0 pa)
        (AnnihilationModel.source_electron_0 ii pa T) E hEXa hsp hE hx

/-- Witness for C7 at the concrete parameters `pd0` (E0 = 10) and `pa0`
(E0 = 10) and the concrete energy `E = 9.9999`, which lies above the
kinematic boundary `E0 * (1 - me2/(4*E0^2)) = 9.99347...`, so both
continuum photon sources evaluate to 0. -/
theorem c7_source_photon_c_witness :
    (0 : ℝ) < pd0.mphi ∧ (0 : ℝ) < pa0.mchi ∧
    DecayModel.source_photon_c ii0 pd0 9.9999 1 = 0 ∧
    AnnihilationModel.source_photon_c ii0 pa0 9.9999 1 = 0 := by
  refine ⟨by norm_num [pd0], by norm_num [pa0], ?_, ?_⟩
  · exact (c7_source_photon_c_kinematics ii0 pd0 pa0 (by norm_num [pd0])
      (by norm_num [pa0]) 9.9999 1).1
      (by norm_num [DecayModel.E0, pd0, me2, me])
  · exact (c7_source_photon_c_kinematics ii0 pd0 pa0 (by norm_num [pd0])
      (by norm_num [pa0]) 9.9999 1).2.2.1
      (by norm_num [AnnihilationModel.E0, pa0, me2, me])

/-- C8: `DecayModel._temperature_range` returns exactly
`(10^(log10(Td) - 1.5), 10^(log10(Td) + 0.5))` where `Td` is the
provider's temperature at the lifetime `tau`, and the returned pair of
both concrete models satisfies `0 < Tmin < Tmax` (the hypothesis
`0 < Td` records the domain of Python's `log10`). -/
theorem c8_temperature_range_bounds (ii : InputInterface) (p : DecayParams)
    (hTd : 0 < ii.temperature p.tau) :
    DecayModel.temperature_range ii p =
      ((10 : ℝ) ^ (Real.logb 10 (ii.temperature p.tau) - 1.5),
       (10 : ℝ) ^ (Real.logb 10 (ii.temperature p.tau) + 0.5)) ∧
    0 < (DecayModel.temperature_range ii p).1 ∧
    (DecayModel.temperature_range ii p).1 < (DecayModel.temperature_range ii p).2 ∧
    0 < AnnihilationModel.temperature_range.1 ∧
    AnnihilationModel.temperature_range.1 < AnnihilationModel.temperature_range.2 := by
  have hTmax : (0 : ℝ) < me2 / (22 * 0.5 * Emin) := by
    simp only [me2, me, Emin]; norm_num
  refine ⟨?_, ?_, ?_, ?_, ?_⟩
  · simp only [DecayModel.temperature_range]
    norm_num
  · simp only [DecayModel.temperature_range]
    exact Real.rpow_pos_of_pos (by norm_num) _
  · simp only [DecayModel.temperature_range]
    exact (Real.rpow_lt_rpow_left_iff (by norm_num)).mpr (by linarith)
  · simp only [AnnihilationModel.temperature_range]
    exact Real.rpow_pos_of_pos (by norm_num) _
  · simp only [AnnihilationModel.temperature_range]
    calc (10 : ℝ) ^ (Real.logb 10 (me2 / (22 * 0.5 * Emin)) - 4)
        < (10 : ℝ) ^ Real.logb 10 (me2 / (22 * 0.5 * Emin)) :=
          (Real.rpow_lt_rpow_left_iff (by norm_num)).mpr (by norm_num)
      _ = me2 / (22 * 0.5 * Emin) :=
          Real.rpow_logb (by norm_num) (by norm_num) hTmax

/-- Witness for C8 at the concrete provider `ii0` (temperature
constantly 1) and parameters `pd0`. -/
theorem c8_temperature_range_witness :
    0 < ii0.temperature pd0.tau ∧
    0 < (DecayModel.temperature_range ii0 pd0).1 ∧
    (DecayModel.temperature_range ii0 pd0).1 <
      (DecayModel.temperature_range ii0 pd0).2 :=
  ⟨by norm_num [ii0],
   (c8_temperature_range_bounds ii0 pd0 (by norm_num [ii0])).2.1,
   (c8_temperature_range_bounds ii0 pd0 (by norm_num [ii0])).2.2.1⟩

end Acropolis
